import Mathlib

/-!
Verification of the HemoScan Clinical Risk Assessment Engine
(src/backend/ml/predictor.py), shallowly embedded in Lean 4.

Conventions of the embedding:
* Python floats are modelled as rationals (ℚ).
* A patient dictionary is modelled as a structure of `Option` fields:
  `none` means the key is absent; `d.get(key, default)` becomes `Option.getD`.
* Binary (0/1) fields of the documented data model are modelled as
  `Option Bool`; Python truthiness of such a field is `Option.getD · false`,
  and its numeric value in sums and feature vectors is 1 or 0.
* Python `round(x, n)` is modelled as round-half-up to n decimals on ℚ.
* The derived-index dictionary keys 'mentzer_index', 'hb_rbc_ratio',
  'mcv_mch_ratio', 'mchc_mch_diff', 'hct_hb_ratio' are stored in fields
  `mentzer_index`, `hb_rbc_quot`, `mcv_mch_quot`, `mchc_mch_diff`,
  `hct_hb_quot` (the two quotient fields are renamed only to satisfy
  identifier hygiene; the string keys keep their exact source spelling).
* Free-text guidance strings of recommendation records (some of which
  interpolate patient values) are elided from the `Recommendation` record;
  the category tag, icon and title identify each record uniquely.
-/

namespace HemoScan

/-- Patient dictionary: every key the predictor reads, `none` = absent. -/
structure PatientData where
  age : Option ℚ
  gender : Option Bool
  hemoglobin : Option ℚ
  rbc_count : Option ℚ
  mcv : Option ℚ
  mch : Option ℚ
  mchc : Option ℚ
  hematocrit : Option ℚ
  iron_level : Option ℚ
  ferritin : Option ℚ
  diet_quality : Option ℚ
  chronic_disease : Option Bool
  pregnancy : Option Bool
  family_history_anemia : Option Bool
  fatigue : Option Bool
  pale_skin : Option Bool
  shortness_of_breath : Option Bool
  dizziness : Option Bool
  cold_hands_feet : Option Bool
  bmi : Option ℚ
  mentzer_index : Option ℚ
  hb_rbc_quot : Option ℚ
  mcv_mch_quot : Option ℚ
  mchc_mch_diff : Option ℚ
  hct_hb_quot : Option ℚ
deriving DecidableEq

/-- The all-missing patient dictionary (an empty dict `{}` in Python). -/
def PatientData.empty : PatientData :=
  ⟨none, none, none, none, none, none, none, none, none, none, none, none,
   none, none, none, none, none, none, none, none, none, none, none, none, none⟩

/-- Numeric value of a binary field in a feature vector or a sum:
`data.get(key, 0)` where the stored value is 0/1. -/
def boolVal (o : Option Bool) : ℚ := if o.getD false then 1 else 0

/-- Python `round(x, 1)` on the embedded rationals. -/
def roundTo1 (x : ℚ) : ℚ := (⌊10 * x + 1 / 2⌋ : ℤ) / 10

/-- Python `round(x, 2)` on the embedded rationals. -/
def roundTo2 (x : ℚ) : ℚ := (⌊100 * x + 1 / 2⌋ : ℤ) / 100

/-- `FEATURE_COLUMNS` of predictor.py: the fixed feature order. -/
def FEATURE_COLUMNS : List String :=
  ["age", "gender", "hemoglobin", "rbc_count", "mcv", "mch", "mchc",
   "hematocrit", "iron_level", "ferritin", "diet_quality", "chronic_disease",
   "pregnancy", "family_history_anemia", "fatigue", "pale_skin",
   "shortness_of_breath", "dizziness", "cold_hands_feet", "bmi",
   "mentzer_index", "hb_rbc_ratio", "mcv_mch_ratio", "mchc_mch_diff", "hct_hb_ratio"]

/-- Effective rbc divisor: `d.get('rbc_count', 0) or 4.5`
(Python `or` replaces a falsy — missing or zero — value by the baseline). -/
def effRbc (d : PatientData) : ℚ :=
  if d.rbc_count.getD 0 = 0 then 4.5 else d.rbc_count.getD 0

/-- Effective mch divisor: `d.get('mch', 0) or 27.0`. -/
def effMch (d : PatientData) : ℚ :=
  if d.mch.getD 0 = 0 then 27.0 else d.mch.getD 0

/-- Effective hemoglobin divisor: `d.get('hemoglobin', 0) or 12.0`. -/
def effHb (d : PatientData) : ℚ :=
  if d.hemoglobin.getD 0 = 0 then 12.0 else d.hemoglobin.getD 0

/-- `_engineer_features`: computes the five derived CBC clinical indices and
stores them in the dictionary; raw keys are left untouched. -/
def engineer_features (d : PatientData) : PatientData :=
  { d with
    mentzer_index := some (roundTo2 (d.mcv.getD 0 / effRbc d)),
    hb_rbc_quot := some (roundTo2 (effHb d / effRbc d)),
    mcv_mch_quot := some (roundTo2 (d.mcv.getD 0 / effMch d)),
    mchc_mch_diff := some (roundTo2 (d.mchc.getD 0 - effMch d)),
    hct_hb_quot := some (roundTo2 (d.hematocrit.getD 0 / effHb d)) }

/-- The feature vector of `predict`:
`[patient_data.get(col, 0) for col in FEATURE_COLUMNS]`, written out in the
`FEATURE_COLUMNS` order. -/
def featureVector (d : PatientData) : List ℚ :=
  [d.age.getD 0, boolVal d.gender, d.hemoglobin.getD 0, d.rbc_count.getD 0,
   d.mcv.getD 0, d.mch.getD 0, d.mchc.getD 0, d.hematocrit.getD 0,
   d.iron_level.getD 0, d.ferritin.getD 0, d.diet_quality.getD 0,
   boolVal d.chronic_disease, boolVal d.pregnancy, boolVal d.family_history_anemia,
   boolVal d.fatigue, boolVal d.pale_skin, boolVal d.shortness_of_breath,
   boolVal d.dizziness, boolVal d.cold_hands_feet, d.bmi.getD 0,
   d.mentzer_index.getD 0, d.hb_rbc_quot.getD 0, d.mcv_mch_quot.getD 0,
   d.mchc_mch_diff.getD 0, d.hct_hb_quot.getD 0]

/-- Count of a binary symptom toward `sum(data.get(s, 0) for s in symptoms)`. -/
def boolNat (o : Option Bool) : ℕ := if o.getD false then 1 else 0

/-- `_calculate_risk_score`: deterministic weighted sum, `min(100, round(score, 1))`
at the end.  The probability vector parameter is accepted (as in the source
signature) but unused. -/
def calculate_risk_score (data : PatientData) (prediction : ℕ) (probs : List ℚ) : ℚ :=
  let base : ℚ := (prediction : ℚ) * 13.3
  let hb := data.hemoglobin.getD 14
  let normal_hb : ℚ := if data.gender.getD false then 13.5 else 12.0
  let hbTerm : ℚ := if hb < normal_hb then min 20 ((normal_hb - hb) / normal_hb * 40) else 0
  let age := data.age.getD 30
  let ageTerm : ℚ := if age < 5 ∨ 65 < age then 8 else if age < 12 ∨ 50 < age then 5 else 0
  let symptom_count : ℕ :=
    boolNat data.fatigue + boolNat data.pale_skin + boolNat data.shortness_of_breath +
    boolNat data.dizziness + boolNat data.cold_hands_feet
  let historyTerm : ℚ :=
    (if data.chronic_disease.getD false then 5 else 0) +
    (if data.pregnancy.getD false then 5 else 0) +
    (if data.family_history_anemia.getD false then 5 else 0)
  let diet := data.diet_quality.getD 1
  let dietTerm : ℚ := if diet = 0 then 5 else if diet = 1 then 2 else 0
  let ironTerm : ℚ :=
    (if data.iron_level.getD 80 < 50 then 5 else 0) +
    (if data.ferritin.getD 100 < 30 then 5 else 0)
  min 100 (roundTo1 (base + hbTerm + ageTerm + (symptom_count : ℚ) * 3 + historyTerm + dietTerm + ironTerm))

/-- `_get_risk_level`: pure step function from score to the 5 risk bands. -/
def get_risk_level (score : ℚ) : String :=
  if score < 20 then "Low"
  else if score < 40 then "Moderate"
  else if score < 60 then "High"
  else if score < 80 then "Very High"
  else "Critical"

/-- A recommendation record; the free-text guidance string is elided
(see the header comment). -/
structure Recommendation where
  rtype : String
  icon : String
  title : String
deriving DecidableEq

/-- `_generate_recommendations`: the rules engine, branch-for-branch.
Each satisfied rule appends its record; the severity-0 low-score branch
short-circuits everything else. -/
def generate_recommendations (data : PatientData) (prediction : ℕ) (risk_score : ℚ) :
    List Recommendation :=
  if prediction = 0 ∧ risk_score < 20 then
    [⟨"info", "✅", "Healthy Status"⟩]
  else
    (if data.diet_quality.getD 1 < 2 then
       [⟨"diet", "🥗", "Improve Dietary Iron Intake"⟩] else []) ++
    (if data.hemoglobin.getD 14 < 10 then
       [⟨"urgent", "🏥", "Seek Immediate Medical Attention"⟩]
     else if data.hemoglobin.getD 14 < 12 then
       [⟨"medical", "👨‍⚕️", "Medical Consultation Recommended"⟩] else []) ++
    (if data.iron_level.getD 80 < 60 ∨ data.ferritin.getD 100 < 30 then
       [⟨"supplement", "💊", "Consider Iron Supplementation"⟩] else []) ++
    (if data.pregnancy.getD false then
       [⟨"pregnancy", "🤰", "Prenatal Anemia Management"⟩] else []) ++
    (if data.fatigue.getD false ∨ data.dizziness.getD false ∨ data.shortness_of_breath.getD false then
       [⟨"lifestyle", "🏃", "Manage Symptoms"⟩] else []) ++
    (if 1 ≤ prediction then
       [⟨"followup", "📅", "Schedule Follow-Up Testing"⟩] else [])

/-- An alert record of `_generate_alerts`. -/
structure Alert where
  level : String
  message : String
  action : String
deriving DecidableEq

/-- The severity-3 alert. -/
def criticalAlert : Alert :=
  ⟨"critical",
   "🚨 CRITICAL: Severe anemia detected. Immediate medical intervention recommended.",
   "Refer to hematologist immediately"⟩

/-- The hemoglobin<7 alert. -/
def emergencyAlert : Alert :=
  ⟨"emergency",
   "⚠️ EMERGENCY: Hemoglobin critically low. Blood transfusion may be required.",
   "Emergency department referral"⟩

/-- The risk_score≥80 alert. -/
def highRiskAlert : Alert :=
  ⟨"high",
   "🔴 HIGH RISK: Multiple risk factors identified. Comprehensive evaluation needed.",
   "Complete blood count + iron studies recommended"⟩

/-- The pregnancy with severity≥2 warning. -/
def pregnancyAlert : Alert :=
  ⟨"warning",
   "⚠️ Moderate-to-severe anemia during pregnancy. Close monitoring required.",
   "Refer to high-risk obstetrics"⟩

/-- `_generate_alerts`: the four independent alert conditions, appended in
evaluation order. -/
def generate_alerts (data : PatientData) (prediction : ℕ) (risk_score : ℚ) : List Alert :=
  (if prediction = 3 then [criticalAlert] else []) ++
  (if data.hemoglobin.getD 14 < 7 then [emergencyAlert] else []) ++
  (if 80 ≤ risk_score then [highRiskAlert] else []) ++
  (if data.pregnancy.getD false ∧ 2 ≤ prediction then [pregnancyAlert] else [])

/-- A risk-factor analysis record; the formatted value/normal-range display
strings of the source are represented by the raw numeric value. -/
structure RiskFactor where
  name : String
  value : ℚ
  status : String
  impact : String
deriving DecidableEq

/-- Status tagging used by `_analyze_risk_factors`:
normal within [lo, hi], low below, high above. -/
def rangeStatus (v lo hi : ℚ) : String :=
  if lo ≤ v ∧ v ≤ hi then "normal" else if v < lo then "low" else "high"

/-- `_analyze_risk_factors`: the five fixed factors in source order. -/
def analyze_risk_factors (data : PatientData) : List RiskFactor :=
  let gender := data.gender.getD false
  let hb := data.hemoglobin.getD 14
  let hbLo : ℚ := if gender then 13.5 else 12.0
  let hbHi : ℚ := if gender then 17.5 else 16.0
  let iron := data.iron_level.getD 80
  let ferritin := data.ferritin.getD 100
  let rbc := data.rbc_count.getD 4.5
  let rbcLo : ℚ := if gender then 4.5 else 4.0
  let rbcHi : ℚ := if gender then 5.5 else 5.0
  let bmi := data.bmi.getD 24
  [⟨"Hemoglobin", hb, rangeStatus hb hbLo hbHi, "high"⟩,
   ⟨"Iron Level", iron, rangeStatus iron 60 170, "high"⟩,
   ⟨"Ferritin", ferritin, rangeStatus ferritin 20 250, "medium"⟩,
   ⟨"RBC Count", rbc, rangeStatus rbc rbcLo rbcHi, "medium"⟩,
   ⟨"BMI", bmi, rangeStatus bmi 18.5 24.9, "low"⟩]

/-- The future-risk projection record of `_predict_future_risk`
(percent values, rounded to 1 decimal). -/
structure FutureRisk where
  three_months : ℚ
  six_months : ℚ
  twelve_months : ℚ
  trend : String
  preventable : Bool
deriving DecidableEq

/-- Modifier accumulation of `_predict_future_risk`: four independent
additive conditions, then the two mutually exclusive age bands. -/
def futureModifiers (data : PatientData) : ℚ :=
  (if data.family_history_anemia.getD false then 0.1 else 0) +
  (if data.chronic_disease.getD false then 0.1 else 0) +
  (if data.diet_quality.getD 1 = 0 then 0.1 else 0) +
  (if data.pregnancy.getD false then 0.05 else 0) +
  (if 60 < data.age.getD 30 then 0.08 else if data.age.getD 30 < 5 then 0.08 else 0)

/-- `_predict_future_risk`: 3/6/12-month projections from the current score. -/
def predict_future_risk (data : PatientData) (current_prediction : ℕ) (risk_score : ℚ) :
    FutureRisk :=
  let base_risk := risk_score / 100
  let modifiers := futureModifiers data
  { three_months := roundTo1 (min 0.95 (base_risk * 0.8 + modifiers * 0.5) * 100),
    six_months := roundTo1 (min 0.95 (base_risk * 0.9 + modifiers * 0.7) * 100),
    twelve_months := roundTo1 (min 0.95 (base_risk + modifiers) * 100),
    trend := if 0 < current_prediction then "increasing" else "stable",
    preventable := risk_score < 60 }

/-- `SEVERITY_LABELS` of predictor.py. -/
def SEVERITY_LABELS : List String :=
  ["Normal", "Mild Anemia", "Moderate Anemia", "Severe Anemia"]

/-- `SEVERITY_COLORS` of predictor.py. -/
def SEVERITY_COLORS : List String :=
  ["#22c55e", "#eab308", "#f97316", "#ef4444"]

/-- The loaded classifier artifact, standardization transform and metadata
descriptor owned by a `HemoScanPredictor` instance after `_load_model`.
`classifyClass`/`classifyProbs` model `model.predict`/`model.predict_proba`
applied to one (already scaled) feature row. -/
structure Gateway where
  scale : List ℚ → List ℚ
  classifyClass : List ℚ → ℕ
  classifyProbs : List ℚ → List ℚ
  metadataFeatures : List String
  metadataAccuracy : ℚ

/-- The assembled `RiskAssessment` dictionary returned by `predict`. -/
structure Assessment where
  severity : ℕ
  severity_label : String
  severity_color : String
  confidence : ℚ
  probabilities : List (String × ℚ)
  risk_score : ℚ
  risk_level : String
  recommendations : List Recommendation
  alerts : List Alert
  risk_factors : List RiskFactor
  future_risk : FutureRisk
  model_accuracy : ℚ

/-- `HemoScanPredictor.predict`: engineers features on a copy of the caller
dictionary, forms the vector in `FEATURE_COLUMNS` order, scales and
classifies it, and assembles the full assessment.  The metadata feature
order is never consulted. -/
def predict (g : Gateway) (patient_data : PatientData) : Assessment :=
  let pd := engineer_features patient_data
  let features := featureVector pd
  let features_scaled := g.scale features
  let prediction := g.classifyClass features_scaled
  let probabilities := g.classifyProbs features_scaled
  let risk_score := calculate_risk_score pd prediction probabilities
  { severity := prediction,
    severity_label := SEVERITY_LABELS.getD prediction "",
    severity_color := SEVERITY_COLORS.getD prediction "",
    confidence := probabilities.foldr max 0 * 100,
    probabilities :=
      probabilities.enum.map (fun ip => (SEVERITY_LABELS.getD ip.1 "", roundTo2 (ip.2 * 100))),
    risk_score := risk_score,
    risk_level := get_risk_level risk_score,
    recommendations := generate_recommendations pd prediction risk_score,
    alerts := generate_alerts pd prediction risk_score,
    risk_factors := analyze_risk_factors pd,
    future_risk := predict_future_risk pd prediction risk_score,
    model_accuracy := g.metadataAccuracy * 100 }

/-- `predict` together with the caller-visible state of the argument
dictionary after the call.  The source passes `dict(patient_data)` — a
fresh copy — to `_engineer_features`, so the caller's mapping is the
untouched original. -/
def predictWithCaller (g : Gateway) (patient_data : PatientData) :
    Assessment × PatientData :=
  (predict g patient_data, patient_data)

/-- Modelled from the spec (section 4.8 wording, stated independently of the
code embedding, for the refinement claim C8): modifier accumulation
"+0.10 family history, +0.10 chronic disease, +0.10 diet_quality=0,
+0.05 pregnancy, +0.08 age>60, +0.08 age<5 (age bands mutually exclusive)". -/
def specModifiers (data : PatientData) : ℚ :=
  (if data.family_history_anemia.getD false then 0.1 else 0) +
  (if data.chronic_disease.getD false then 0.1 else 0) +
  (if data.diet_quality.getD 1 = 0 then 0.1 else 0) +
  (if data.pregnancy.getD false then 0.05 else 0) +
  (if 60 < data.age.getD 30 then 0.08 else if data.age.getD 30 < 5 then 0.08 else 0)

/-- Modelled from the spec: "12-month = min(0.95, base + modifiers)" with
`base = risk_score/100`, scaled to percent and rounded to 1 decimal. -/
def specTwelveMonth (data : PatientData) (risk_score : ℚ) : ℚ :=
  roundTo1 (min 0.95 (risk_score / 100 + specModifiers data) * 100)

/-! ### Helper lemmas -/

theorem roundTo1_nonneg {x : ℚ} (hx : 0 ≤ x) : 0 ≤ roundTo1 x := by
  unfold roundTo1
  have h : ((0 : ℤ) : ℚ) ≤ 10 * x + 1 / 2 := by push_cast; linarith
  have h2 : (0 : ℤ) ≤ ⌊10 * x + 1 / 2⌋ := Int.le_floor.2 h
  have h3 : (0 : ℚ) ≤ (⌊10 * x + 1 / 2⌋ : ℤ) := by exact_mod_cast h2
  linarith

theorem roundTo1_mono {x y : ℚ} (h : x ≤ y) : roundTo1 x ≤ roundTo1 y := by
  unfold roundTo1
  have h2 : ⌊10 * x + 1 / 2⌋ ≤ ⌊10 * y + 1 / 2⌋ := Int.floor_mono (by linarith)
  have h3 : ((⌊10 * x + 1 / 2⌋ : ℤ) : ℚ) ≤ ((⌊10 * y + 1 / 2⌋ : ℤ) : ℚ) := by
    exact_mod_cast h2
  linarith

/-! ### Claim theorems -/

/-- Claim C3: for every patient dictionary and every severity class in
{0,1,2,3}, the computed risk score — the weighted sum of severity base,
hemoglobin deficit, age, symptom, history, diet and iron/ferritin terms,
rounded to 1 decimal and clamped — lies in the closed interval [0, 100]. -/
theorem risk_score_in_range (data : PatientData) (prediction : ℕ) (probs : List ℚ)
    (hp : prediction ≤ 3) :
    0 ≤ calculate_risk_score data prediction probs ∧
    calculate_risk_score data prediction probs ≤ 100 := by
  clear hp
  unfold calculate_risk_score
  constructor
  · refine le_min (by norm_num) (roundTo1_nonneg ?_)
    refine add_nonneg (add_nonneg (add_nonneg (add_nonneg (add_nonneg
      (add_nonneg ?_ ?_) ?_) ?_) ?_) ?_) ?_
    · positivity
    · split_ifs with hg hlt hlt
      · exact le_min (by norm_num)
          (mul_nonneg (div_nonneg (by linarith) (by norm_num)) (by norm_num))
      · norm_num
      · exact le_min (by norm_num)
          (mul_nonneg (div_nonneg (by linarith) (by norm_num)) (by norm_num))
      · norm_num
    · split_ifs <;> norm_num
    · positivity
    · split_ifs <;> norm_num
    · split_ifs <;> norm_num
    · split_ifs <;> norm_num
  · exact min_le_left 100 _

/-- Witness for C3 at a concrete severe record. -/
theorem risk_score_in_range_witness :
    3 ≤ 3 ∧
    (0 ≤ calculate_risk_score PatientData.empty 3 [] ∧
     calculate_risk_score PatientData.empty 3 [] ≤ 100) :=
  ⟨le_refl 3, risk_score_in_range PatientData.empty 3 [] (le_refl 3)⟩

/-- Claim C4: with all other fields fixed and the severity class held fixed,
if both hemoglobin values are below the sex-specific normal threshold
(13.5 male / 12.0 female), the record with the lower hemoglobin never
receives a strictly lower risk score. -/
theorem risk_score_monotone_in_hemoglobin (d : PatientData) (prediction : ℕ)
    (probs : List ℚ) (hb1 hb2 : ℚ) (h21 : hb2 ≤ hb1)
    (h1 : hb1 < (if d.gender.getD false then (13.5 : ℚ) else 12.0)) :
    calculate_risk_score { d with hemoglobin := some hb1 } prediction probs ≤
    calculate_risk_score { d with hemoglobin := some hb2 } prediction probs := by
  have h2 : hb2 < (if d.gender.getD false then (13.5 : ℚ) else 12.0) :=
    lt_of_le_of_lt h21 h1
  unfold calculate_risk_score
  simp only [Option.getD_some]
  by_cases hg : d.gender.getD false = true
  · simp only [hg, if_true] at h1 h2 ⊢
    refine min_le_min (le_refl 100) (roundTo1_mono ?_)
    rw [if_pos h1, if_pos h2]
    have hm : (13.5 - hb1) / 13.5 * 40 ≤ ((13.5 : ℚ) - hb2) / 13.5 * 40 := by
      gcongr
    have hmin := min_le_min (le_refl (20 : ℚ)) hm
    linarith
  · simp only [if_neg hg] at h1 h2 ⊢
    refine min_le_min (le_refl 100) (roundTo1_mono ?_)
    rw [if_pos h1, if_pos h2]
    have hm : (12.0 - hb1) / 12.0 * 40 ≤ ((12.0 : ℚ) - hb2) / 12.0 * 40 := by
      gcongr
    have hmin := min_le_min (le_refl (20 : ℚ)) hm
    linarith

/-- Witness for C4: a female-threshold record, hemoglobin 11 versus 10. -/
theorem risk_score_monotone_in_hemoglobin_witness :
    ((10 : ℚ) ≤ 11 ∧
     (11 : ℚ) < (if PatientData.empty.gender.getD false then (13.5 : ℚ) else 12.0)) ∧
    calculate_risk_score { PatientData.empty with hemoglobin := some 11 } 0 [] ≤
    calculate_risk_score { PatientData.empty with hemoglobin := some 10 } 0 [] :=
  ⟨⟨by norm_num, by norm_num [PatientData.empty]⟩,
   risk_score_monotone_in_hemoglobin PatientData.empty 0 [] 11 10 (by norm_num)
     (by norm_num [PatientData.empty])⟩

/-- Claim C5: with severity class 0 and risk score below 20, the
recommendation generator returns exactly the single Healthy Status record;
no other rule appends. -/
theorem healthy_short_circuit (d : PatientData) (score : ℚ) (h : score < 20) :
    generate_recommendations d 0 score = [⟨"info", "✅", "Healthy Status"⟩] := by
  unfold generate_recommendations
  rw [if_pos ⟨rfl, h⟩]

/-- Witness for C5 at the empty dictionary with score 0. -/
theorem healthy_short_circuit_witness :
    (0 : ℚ) < 20 ∧
    generate_recommendations PatientData.empty 0 0 = [⟨"info", "✅", "Healthy Status"⟩] :=
  ⟨by norm_num, healthy_short_circuit PatientData.empty 0 (by norm_num)⟩

/-- An elderly, well-nourished record with history and circulation symptoms:
severity 0 but risk score 24. -/
def elderlyLowSeverity : PatientData :=
  { PatientData.empty with
    age := some 70, gender := some false, hemoglobin := some 12,
    diet_quality := some 2, chronic_disease := some true,
    family_history_anemia := some true, pale_skin := some true,
    cold_hands_feet := some true }

/-- Claim C10: a record with severity class 0 and risk score at least 20 can
receive an empty recommendation list — the list is not guaranteed non-empty
outside the healthy short-circuit. -/
theorem recommendations_can_be_empty :
    calculate_risk_score elderlyLowSeverity 0 [] = 24 ∧
    (20 : ℚ) ≤ calculate_risk_score elderlyLowSeverity 0 [] ∧
    generate_recommendations elderlyLowSeverity 0
      (calculate_risk_score elderlyLowSeverity 0 []) = [] := by
  have hs : calculate_risk_score elderlyLowSeverity 0 [] = 24 := by
    norm_num [calculate_risk_score, boolNat, roundTo1, elderlyLowSeverity,
      PatientData.empty, min_def]
  refine ⟨hs, by rw [hs]; norm_num, ?_⟩
  rw [hs]
  norm_num [generate_recommendations, elderlyLowSeverity, PatientData.empty]

/-- The critical-alert membership rule. -/
theorem critical_alert_mem_iff (d : PatientData) (p : ℕ) (s : ℚ) :
    criticalAlert ∈ generate_alerts d p s ↔ p = 3 := by
  by_cases h1 : p = 3 <;> by_cases h2 : d.hemoglobin.getD 14 < 7 <;>
    by_cases h3 : 80 ≤ s <;> by_cases h4 : d.pregnancy.getD false = true ∧ 2 ≤ p <;>
    simp [generate_alerts, h1, h2, h3, h4, criticalAlert, emergencyAlert,
      highRiskAlert, pregnancyAlert]

/-- The emergency-alert membership rule. -/
theorem emergency_alert_mem_iff (d : PatientData) (p : ℕ) (s : ℚ) :
    emergencyAlert ∈ generate_alerts d p s ↔ d.hemoglobin.getD 14 < 7 := by
  by_cases h1 : p = 3 <;> by_cases h2 : d.hemoglobin.getD 14 < 7 <;>
    by_cases h3 : 80 ≤ s <;> by_cases h4 : d.pregnancy.getD false = true ∧ 2 ≤ p <;>
    simp [generate_alerts, h1, h2, h3, h4, criticalAlert, emergencyAlert,
      highRiskAlert, pregnancyAlert]

/-- The high-risk-alert membership rule. -/
theorem high_risk_alert_mem_iff (d : PatientData) (p : ℕ) (s : ℚ) :
    highRiskAlert ∈ generate_alerts d p s ↔ 80 ≤ s := by
  by_cases h1 : p = 3 <;> by_cases h2 : d.hemoglobin.getD 14 < 7 <;>
    by_cases h3 : 80 ≤ s <;> by_cases h4 : d.pregnancy.getD false = true ∧ 2 ≤ p <;>
    simp [generate_alerts, h1, h2, h3, h4, criticalAlert, emergencyAlert,
      highRiskAlert, pregnancyAlert]

/-- The pregnancy-warning membership rule. -/
theorem pregnancy_alert_mem_iff (d : PatientData) (p : ℕ) (s : ℚ) :
    pregnancyAlert ∈ generate_alerts d p s ↔
      (d.pregnancy.getD false = true ∧ 2 ≤ p) := by
  by_cases h1 : p = 3 <;> by_cases h2 : d.hemoglobin.getD 14 < 7 <;>
    by_cases h3 : 80 ≤ s <;> by_cases h4 : d.pregnancy.getD false = true ∧ 2 ≤ p <;>
    simp [generate_alerts, h1, h2, h3, h4, criticalAlert, emergencyAlert,
      highRiskAlert, pregnancyAlert]

/-- Emitted alerts always follow the fixed evaluation order. -/
theorem generate_alerts_ordered (d : PatientData) (p : ℕ) (s : ℚ) :
    List.Sublist (generate_alerts d p s)
      [criticalAlert, emergencyAlert, highRiskAlert, pregnancyAlert] := by
  by_cases h1 : p = 3 <;> by_cases h2 : d.hemoglobin.getD 14 < 7 <;>
    by_cases h3 : 80 ≤ s <;> by_cases h4 : d.pregnancy.getD false = true ∧ 2 ≤ p <;>
    simp [generate_alerts, h1, h2, h3, h4]

/-- The pregnant severe-anemia scenario record: female, age 30, pregnant,
hemoglobin 6.5. -/
def pregnantSevere : PatientData :=
  { PatientData.empty with
    gender := some false, age := some 30,
    pregnancy := some true, hemoglobin := some 6.5 }

/-- Claim C6: the alert generator emits the critical alert iff severity=3,
the emergency alert iff hemoglobin<7, the high-risk alert iff score≥80 and
the pregnancy warning iff pregnancy is present with severity≥2, in exactly
that evaluation order; in particular the pregnant severity-3 patient with
hemoglobin 6.5 receives the critical, emergency and pregnancy alerts. -/
theorem alerts_characterization :
    (∀ (d : PatientData) (prediction : ℕ) (score : ℚ),
      (criticalAlert ∈ generate_alerts d prediction score ↔ prediction = 3) ∧
      (emergencyAlert ∈ generate_alerts d prediction score ↔
        d.hemoglobin.getD 14 < 7) ∧
      (highRiskAlert ∈ generate_alerts d prediction score ↔ 80 ≤ score) ∧
      (pregnancyAlert ∈ generate_alerts d prediction score ↔
        (d.pregnancy.getD false = true ∧ 2 ≤ prediction)) ∧
      List.Sublist (generate_alerts d prediction score)
        [criticalAlert, emergencyAlert, highRiskAlert, pregnancyAlert]) ∧
    (criticalAlert ∈
       generate_alerts pregnantSevere 3 (calculate_risk_score pregnantSevere 3 []) ∧
     emergencyAlert ∈
       generate_alerts pregnantSevere 3 (calculate_risk_score pregnantSevere 3 []) ∧
     pregnancyAlert ∈
       generate_alerts pregnantSevere 3 (calculate_risk_score pregnantSevere 3 [])) := by
  refine ⟨fun d prediction score =>
    ⟨critical_alert_mem_iff d prediction score,
     emergency_alert_mem_iff d prediction score,
     high_risk_alert_mem_iff d prediction score,
     pregnancy_alert_mem_iff d prediction score,
     generate_alerts_ordered d prediction score⟩, ?_, ?_, ?_⟩
  · exact (critical_alert_mem_iff pregnantSevere 3 _).2 rfl
  · refine (emergency_alert_mem_iff pregnantSevere 3 _).2 ?_
    norm_num [pregnantSevere, PatientData.empty]
  · refine (pregnancy_alert_mem_iff pregnantSevere 3 _).2 ?_
    refine ⟨?_, by norm_num⟩
    simp [pregnantSevere, PatientData.empty]

/-- Claim C7: the three divisors used by the derived clinical indices are
never zero — zero or missing values are replaced by the clinical baseline —
and in particular the all-missing record produces finite, defined values for
all five indices. -/
theorem derived_indices_division_safe :
    (∀ d : PatientData, effRbc d ≠ 0 ∧ effMch d ≠ 0 ∧ effHb d ≠ 0) ∧
    (engineer_features PatientData.empty).mentzer_index = some 0 ∧
    (engineer_features PatientData.empty).hb_rbc_quot = some (267 / 100) ∧
    (engineer_features PatientData.empty).mcv_mch_quot = some 0 ∧
    (engineer_features PatientData.empty).mchc_mch_diff = some (-27) ∧
    (engineer_features PatientData.empty).hct_hb_quot = some 0 := by
  refine ⟨fun d => ⟨?_, ?_, ?_⟩, ?_, ?_, ?_, ?_, ?_⟩
  · unfold effRbc; split_ifs with h
    · norm_num
    · exact h
  · unfold effMch; split_ifs with h
    · norm_num
    · exact h
  · unfold effHb; split_ifs with h
    · norm_num
    · exact h
  all_goals
    norm_num [engineer_features, effRbc, effMch, effHb, roundTo2, PatientData.empty]

/-- A record satisfying every future-risk modifier condition at once. -/
def allModifiers : PatientData :=
  { PatientData.empty with
    family_history_anemia := some true, chronic_disease := some true,
    diet_quality := some 0, pregnancy := some true, age := some 70 }

/-- Claim C8: the 12-month projection equals
min(0.95, risk_score/100 + modifiers) scaled to percent and rounded to
1 decimal, where modifiers is the additive sum of the five independent
conditions (the two age bands mutually exclusive) with no cap before use:
the sum reaches 0.43 and the 0.95 ceiling binds. -/
theorem twelve_month_projection_matches_spec :
    (∀ (d : PatientData) (p : ℕ) (score : ℚ),
      (predict_future_risk d p score).twelve_months = specTwelveMonth d score) ∧
    specModifiers allModifiers = 43 / 100 ∧
    (predict_future_risk allModifiers 1 90).twelve_months = 95 := by
  refine ⟨fun d p score => rfl, ?_, ?_⟩
  · norm_num [specModifiers, allModifiers, PatientData.empty]
  · norm_num [predict_future_risk, futureModifiers, roundTo1, allModifiers,
      PatientData.empty, min_def]

/-- Claim C9: `predict` operates on a copy of the caller's dictionary, so
the caller-visible mapping after the call is the untouched original, even
though `_engineer_features` really does add keys to the dictionary it is
given (the copy). -/
theorem predict_leaves_caller_unchanged :
    (∀ (g : Gateway) (pd : PatientData), (predictWithCaller g pd).2 = pd) ∧
    engineer_features PatientData.empty ≠ PatientData.empty := by
  refine ⟨fun g pd => rfl, fun h => ?_⟩
  have h2 := congrArg PatientData.mentzer_index h
  simp [engineer_features, PatientData.empty] at h2

/-- Claim C1 counterexample: with hemoglobin absent, the feature-vector
entry at the hemoglobin position is 0, not the clinical baseline 12. -/
theorem missing_hemoglobin_enters_vector_as_zero :
    FEATURE_COLUMNS.get? 2 = some "hemoglobin" ∧
    PatientData.empty.hemoglobin = none ∧
    (featureVector (engineer_features PatientData.empty)).get? 2 = some 0 ∧
    (featureVector (engineer_features PatientData.empty)).get? 2 ≠ some 12 := by
  refine ⟨rfl, rfl, ?_, ?_⟩ <;>
    norm_num [featureVector, engineer_features, PatientData.empty]

/-- Claim C1 amended: baseline substitution is confined to the derived-index
computation of `_engineer_features` — a missing rbc_count is replaced by 4.5,
a missing mch by 27.0 and a missing hemoglobin by 12.0 there, and all five
derived indices are then computed from those baselines — while the raw keys
of the dictionary are left untouched, and every missing raw field enters the
classifier feature vector as 0. -/
theorem missing_fields_baseline_only_in_indices :
    (∀ d : PatientData,
      (engineer_features d).age = d.age ∧
      (engineer_features d).gender = d.gender ∧
      (engineer_features d).hemoglobin = d.hemoglobin ∧
      (engineer_features d).rbc_count = d.rbc_count ∧
      (engineer_features d).mcv = d.mcv ∧
      (engineer_features d).mch = d.mch ∧
      (engineer_features d).mchc = d.mchc ∧
      (engineer_features d).hematocrit = d.hematocrit ∧
      (engineer_features d).iron_level = d.iron_level ∧
      (engineer_features d).ferritin = d.ferritin ∧
      (engineer_features d).diet_quality = d.diet_quality ∧
      (engineer_features d).chronic_disease = d.chronic_disease ∧
      (engineer_features d).pregnancy = d.pregnancy ∧
      (engineer_features d).family_history_anemia = d.family_history_anemia ∧
      (engineer_features d).fatigue = d.fatigue ∧
      (engineer_features d).pale_skin = d.pale_skin ∧
      (engineer_features d).shortness_of_breath = d.shortness_of_breath ∧
      (engineer_features d).dizziness = d.dizziness ∧
      (engineer_features d).cold_hands_feet = d.cold_hands_feet ∧
      (engineer_features d).bmi = d.bmi) ∧
    (∀ d : PatientData,
      (d.rbc_count = none → effRbc d = 4.5) ∧
      (d.mch = none → effMch d = 27.0) ∧
      (d.hemoglobin = none → effHb d = 12.0)) ∧
    (∀ d : PatientData, d.rbc_count = none → d.mch = none → d.hemoglobin = none →
      (engineer_features d).mentzer_index = some (roundTo2 (d.mcv.getD 0 / 4.5)) ∧
      (engineer_features d).hb_rbc_quot = some (roundTo2 ((12.0 : ℚ) / 4.5)) ∧
      (engineer_features d).mcv_mch_quot = some (roundTo2 (d.mcv.getD 0 / 27.0)) ∧
      (engineer_features d).mchc_mch_diff = some (roundTo2 (d.mchc.getD 0 - 27.0)) ∧
      (engineer_features d).hct_hb_quot = some (roundTo2 (d.hematocrit.getD 0 / 12.0))) ∧
    (∀ d : PatientData,
      (d.age = none → (featureVector (engineer_features d)).get? 0 = some 0) ∧
      (d.gender = none → (featureVector (engineer_features d)).get? 1 = some 0) ∧
      (d.hemoglobin = none → (featureVector (engineer_features d)).get? 2 = some 0) ∧
      (d.rbc_count = none → (featureVector (engineer_features d)).get? 3 = some 0) ∧
      (d.mcv = none → (featureVector (engineer_features d)).get? 4 = some 0) ∧
      (d.mch = none → (featureVector (engineer_features d)).get? 5 = some 0) ∧
      (d.mchc = none → (featureVector (engineer_features d)).get? 6 = some 0) ∧
      (d.hematocrit = none → (featureVector (engineer_features d)).get? 7 = some 0) ∧
      (d.iron_level = none → (featureVector (engineer_features d)).get? 8 = some 0) ∧
      (d.ferritin = none → (featureVector (engineer_features d)).get? 9 = some 0) ∧
      (d.diet_quality = none → (featureVector (engineer_features d)).get? 10 = some 0) ∧
      (d.chronic_disease = none → (featureVector (engineer_features d)).get? 11 = some 0) ∧
      (d.pregnancy = none → (featureVector (engineer_features d)).get? 12 = some 0) ∧
      (d.family_history_anemia = none →
        (featureVector (engineer_features d)).get? 13 = some 0) ∧
      (d.fatigue = none → (featureVector (engineer_features d)).get? 14 = some 0) ∧
      (d.pale_skin = none → (featureVector (engineer_features d)).get? 15 = some 0) ∧
      (d.shortness_of_breath = none →
        (featureVector (engineer_features d)).get? 16 = some 0) ∧
      (d.dizziness = none → (featureVector (engineer_features d)).get? 17 = some 0) ∧
      (d.cold_hands_feet = none →
        (featureVector (engineer_features d)).get? 18 = some 0) ∧
      (d.bmi = none → (featureVector (engineer_features d)).get? 19 = some 0)) := by
  refine ⟨?_, ?_, ?_, ?_⟩
  · exact fun d => ⟨rfl, rfl, rfl, rfl, rfl, rfl, rfl, rfl, rfl, rfl, rfl, rfl,
      rfl, rfl, rfl, rfl, rfl, rfl, rfl, rfl⟩
  · intro d
    refine ⟨fun h => ?_, fun h => ?_, fun h => ?_⟩ <;> simp [effRbc, effMch, effHb, h]
  · intro d h1 h2 h3
    refine ⟨?_, ?_, ?_, ?_, ?_⟩ <;>
      simp [engineer_features, effRbc, effMch, effHb, h1, h2, h3]
  · intro d
    refine ⟨fun h => ?_, fun h => ?_, fun h => ?_, fun h => ?_, fun h => ?_,
      fun h => ?_, fun h => ?_, fun h => ?_, fun h => ?_, fun h => ?_,
      fun h => ?_, fun h => ?_, fun h => ?_, fun h => ?_, fun h => ?_,
      fun h => ?_, fun h => ?_, fun h => ?_, fun h => ?_, fun h => ?_⟩ <;>
      simp [featureVector, engineer_features, boolVal, h]

/-- Witness for the amended C1 at the empty dictionary: the three divisor
hypotheses hold, the baselines are substituted, the indices are computed
from them, a raw key stays untouched, and the hemoglobin slot of the
vector is 0. -/
theorem missing_fields_baseline_only_in_indices_witness :
    PatientData.empty.rbc_count = none ∧
    PatientData.empty.mch = none ∧
    PatientData.empty.hemoglobin = none ∧
    effRbc PatientData.empty = 4.5 ∧
    effMch PatientData.empty = 27.0 ∧
    effHb PatientData.empty = 12.0 ∧
    (engineer_features PatientData.empty).hemoglobin = PatientData.empty.hemoglobin ∧
    ((engineer_features PatientData.empty).mentzer_index =
       some (roundTo2 (PatientData.empty.mcv.getD 0 / 4.5)) ∧
     (engineer_features PatientData.empty).hb_rbc_quot =
       some (roundTo2 ((12.0 : ℚ) / 4.5)) ∧
     (engineer_features PatientData.empty).mcv_mch_quot =
       some (roundTo2 (PatientData.empty.mcv.getD 0 / 27.0)) ∧
     (engineer_features PatientData.empty).mchc_mch_diff =
       some (roundTo2 (PatientData.empty.mchc.getD 0 - 27.0)) ∧
     (engineer_features PatientData.empty).hct_hb_quot =
       some (roundTo2 (PatientData.empty.hematocrit.getD 0 / 12.0))) ∧
    (featureVector (engineer_features PatientData.empty)).get? 2 = some 0 :=
  ⟨rfl, rfl, rfl,
   (missing_fields_baseline_only_in_indices.2.1 PatientData.empty).1 rfl,
   (missing_fields_baseline_only_in_indices.2.1 PatientData.empty).2.1 rfl,
   (missing_fields_baseline_only_in_indices.2.1 PatientData.empty).2.2 rfl,
   (missing_fields_baseline_only_in_indices.1 PatientData.empty).2.2.1,
   missing_fields_baseline_only_in_indices.2.2.1 PatientData.empty rfl rfl rfl,
   (missing_fields_baseline_only_in_indices.2.2.2 PatientData.empty).2.2.1 rfl⟩

/-- A gateway whose metadata descriptor declares a feature order different
from the computed vector's FEATURE_COLUMNS order. -/
def mismatchedGateway : Gateway :=
  { scale := fun v => v,
    classifyClass := fun _ => 0,
    classifyProbs := fun _ => [1, 0, 0, 0],
    metadataFeatures := ["some", "other", "order"],
    metadataAccuracy := 0 }

/-- Claim C2 counterexample: with a metadata descriptor declaring a feature
order that does not match the computed vector's order, `predict` still
returns a complete assessment instead of failing the request. -/
theorem mismatched_metadata_still_assessed :
    mismatchedGateway.metadataFeatures ≠ FEATURE_COLUMNS ∧
    (predict mismatchedGateway PatientData.empty).severity_label = "Normal" ∧
    (predict mismatchedGateway PatientData.empty).risk_score = 2 := by
  refine ⟨by simp [mismatchedGateway, FEATURE_COLUMNS], rfl, ?_⟩
  norm_num [predict, mismatchedGateway, calculate_risk_score, engineer_features,
    boolNat, roundTo1, PatientData.empty, min_def]

/-- Claim C2 amended: the Engine never consults the metadata descriptor's
declared feature order — the assessment is the same whatever that order is. -/
theorem predict_ignores_metadata_feature_order (g : Gateway) (fs : List String)
    (d : PatientData) :
    predict { g with metadataFeatures := fs } d = predict g d := rfl

end HemoScan
